import Mathlib

/-
Verification of the command/state dispatcher (`CommandHandler`, from
src/python/lsst/ts/envsensors/command_handler.py) and the instrument
read-loop supervisor (`EssInstrument`, from
src/python/lsst/ts/envsensors/ess_instrument_object.py) of ts_ess_sensors.

The Python code is shallowly embedded: dictionaries become structures with
optional fields, exceptions become explicit error values, and the mutable
`self` state of `CommandHandler` is threaded explicitly. Awaited side
effects of the supervisor are recorded as an explicit action trace.
-/

set_option maxHeartbeats 1000000

/-- Modelled from the spec: the response-code module is not under src/; the
spec enumerates exactly these five codes. -/
inductive ResponseCode where
  | OK
  | ALREADY_STARTED
  | NOT_CONFIGURED
  | NOT_STARTED
  | INVALID_CONFIGURATION
deriving DecidableEq, Repr

/-- Modelled from the spec: the command-error module is not under src/; the
spec says a Command Error always carries one of the enumerated response
codes, and the handler constructs it with a message and a response code. -/
structure CommandError where
  msg : String
  response_code : ResponseCode
deriving DecidableEq, Repr

/-- Modelled from the spec: the constants module (class `Key`) is not under
src/; the spec names the configuration keys. -/
def Key.DEVICES : String := "devices"

def Key.NAME : String := "name"

def Key.CHANNELS : String := "channels"

def Key.TYPE : String := "type"

def Key.FTDI_ID : String := "ftdi_id"

def Key.SERIAL_PORT : String := "serial_port"

/-- Modelled from the spec: the constants module (class `DeviceType`) is not
under src/; the spec names the two device types FTDI and SERIAL. Only
distinctness of the two strings matters to the handler. -/
def DeviceType.FTDI : String := "FTDI"

def DeviceType.SERIAL : String := "SERIAL"

/-- One record of the `devices` sequence of a configuration dict. A field is
`none` when the corresponding key is absent from the dict. The `channels`
payload is opaque to the handler and modelled as a `Nat`. -/
structure DeviceConfiguration where
  name : Option String
  channels : Option Nat
  type : Option String
  ftdi_id : Option String
  serial_port : Option String
deriving DecidableEq, Repr

/-- The top-level configuration dict: `devices` is the value of the
`devices` key when present; `extraKeys` counts the top-level keys other
than `devices` (their names and values never influence the handler). -/
structure Configuration where
  devices : Option (List DeviceConfiguration)
  extraKeys : Nat
deriving DecidableEq, Repr

def msgMissingDevices : String := "Missing configuration key " ++ Key.DEVICES ++ "."

def msgExpectedOneKey (n : Nat) : String :=
  "Expected one configuration key but got " ++ toString n ++ "."

def msgDevicesDataMissing : String :=
  "The configuration data for key " ++ Key.DEVICES ++ " is missing."

def msgMandatoryKeys : String :=
  "The configuration keys " ++ Key.NAME ++ ", " ++ Key.CHANNELS ++ " and " ++
    Key.TYPE ++ " are mandatory."

def msgBadType : String :=
  "The value for key " ++ Key.TYPE ++ " must be either " ++ DeviceType.FTDI ++
    " or " ++ DeviceType.SERIAL

def msgMissingFtdiId : String :=
  "Missing configuration key " ++ Key.FTDI_ID ++ " for device of type " ++
    DeviceType.FTDI

def msgMissingSerialPort : String :=
  "Missing configuration key " ++ Key.SERIAL_PORT ++ " for device of type " ++
    DeviceType.SERIAL

/-- `CommandHandler._validate_device_configuration`. -/
def validate_device_configuration (dc : DeviceConfiguration) :
    Except CommandError Unit :=
  if dc.name = none ∨ dc.channels = none ∨ dc.type = none then
    .error ⟨msgMandatoryKeys, .INVALID_CONFIGURATION⟩
  else if ¬ (dc.type = some DeviceType.FTDI ∨ dc.type = some DeviceType.SERIAL) then
    .error ⟨msgBadType, .INVALID_CONFIGURATION⟩
  else if dc.type = some DeviceType.FTDI ∧ dc.ftdi_id = none then
    .error ⟨msgMissingFtdiId, .INVALID_CONFIGURATION⟩
  else if dc.type = some DeviceType.SERIAL ∧ dc.serial_port = none then
    .error ⟨msgMissingSerialPort, .INVALID_CONFIGURATION⟩
  else
    .ok ()

/-- The `for device_configuration in device_configurations` loop of
`CommandHandler._validate_configuration`: the first raised error stops the
scan. -/
def validate_devices : List DeviceConfiguration → Except CommandError Unit
  | [] => .ok ()
  | dc :: rest =>
    match validate_device_configuration dc with
    | .error e => .error e
    | .ok _ => validate_devices rest

/-- `CommandHandler._validate_configuration`. With the `devices` key present
the dict has `1 + extraKeys` keys, so `len(configuration.keys()) != 1` is
`extraKeys ≠ 0`; `if not device_configurations` is emptiness of the list. -/
def validate_configuration (c : Configuration) : Except CommandError Unit :=
  match c.devices with
  | none => .error ⟨msgMissingDevices, .INVALID_CONFIGURATION⟩
  | some devs =>
    if c.extraKeys ≠ 0 then
      .error ⟨msgExpectedOneKey (1 + c.extraKeys), .INVALID_CONFIGURATION⟩
    else if devs = [] then
      .error ⟨msgDevicesDataMissing, .INVALID_CONFIGURATION⟩
    else
      validate_devices devs

/-- The three concrete device readers. `MockTemperatureSensor`, `VcpFtdi` and
`RpiSerialHat` are external collaborators (not under src/); only their
identity and constructor arguments, as passed by `_get_device`, are
modelled. -/
inductive Device where
  | mockTemperatureSensor (name : String) (channels : Nat)
      (disconnected_channel : Option Nat)
  | vcpFtdi (name : String) (ftdi_id : String)
  | rpiSerialHat (name : String) (serial_port : String)
deriving DecidableEq, Repr

/-- The fatal error of `_get_device`. Unlike `CommandError` it carries no
`ResponseCode`; the Python message is formatted from the device type value
and the platform string, modelled here by the raw `type` field value. -/
structure RuntimeError where
  typeVal : Option String
deriving DecidableEq, Repr

/-- `CommandHandler._get_device`. The Python code queries
`"aarch64" in platform.platform()`; that host property is the explicit
input `aarch64`. On a validated device configuration the `name`, `channels`
and type-specific keys are present, so the `.getD` defaults are never the
observed values. -/
def get_device (simulation_mode : Nat) (disconnected_channel : Option Nat)
    (aarch64 : Bool) (dc : DeviceConfiguration) : Except RuntimeError Device :=
  let device : Option Device :=
    if simulation_mode = 1 then
      some (.mockTemperatureSensor (dc.name.getD ("")) (dc.channels.getD 0)
        disconnected_channel)
    else if dc.type = some DeviceType.FTDI then
      some (.vcpFtdi (dc.name.getD ("")) (dc.ftdi_id.getD ("")))
    else if dc.type = some DeviceType.SERIAL then
      if aarch64 then
        some (.rpiSerialHat (dc.name.getD ("")) (dc.serial_port.getD ("")))
      else
        none
    else
      none
  match device with
  | some d => .ok d
  | none => .error ⟨dc.type⟩

/-- `SelTemperature` (external, not under src/): the decoder wrapping one
device; only the constructor arguments passed by `connect_devices` are
modelled. -/
structure SelTemperature where
  name : String
  uart_device : Device
  channels : Nat
deriving DecidableEq, Repr

/-- The awaited or scheduled side effects of an `EssInstrument` operation,
in program order. `cancelTask` is `telemetry_loop.cancel()` (a cancellation
request; it does not await the task), `readerStop` is
`await self._reader.stop()`, `awaitTaskDone` would be awaiting the
cancelled task until it terminates (no line of the source does this),
`spawnTask` is `asyncio.ensure_future(self._run())`. -/
inductive SupAction where
  | spawnTask
  | cancelTask
  | awaitTaskDone
  | readerStart
  | readerStop
deriving DecidableEq, Repr

/-- `EssInstrument`: `enabled` is `self._enabled`, `hasTask` records whether
`self.telemetry_loop` is a task (not `None`). -/
structure EssInstrument where
  name : String
  reader : SelTemperature
  enabled : Bool
  hasTask : Bool
deriving DecidableEq, Repr

/-- `EssInstrument.start`: sets `_enabled` and schedules `_run` as an
independent task. The reader is started inside the spawned task, not
awaited by `start` itself. -/
def EssInstrument.start (s : EssInstrument) : EssInstrument × List SupAction :=
  ({ s with enabled := true, hasTask := true }, [SupAction.spawnTask])

/-- `EssInstrument.stop`: when enabled, requests cancellation of the
polling task and then awaits `self._reader.stop()`; `_enabled` is set to
`False` after the conditional in both branches. The source never awaits
the cancelled task itself. -/
def EssInstrument.stop (s : EssInstrument) : EssInstrument × List SupAction :=
  if s.enabled then
    ({ s with enabled := false }, [SupAction.cancelTask, SupAction.readerStop])
  else
    ({ s with enabled := false }, [])

/-- `CommandHandler` state: `configuration` is `self._configuration`,
`started` is `self._started`, `ess_instruments` is `self._ess_instruments`,
`disconnected_channel` is the test hook passed to the mock sensor. -/
structure CommandHandler where
  simulation_mode : Nat
  configuration : Option Configuration
  started : Bool
  ess_instruments : List EssInstrument
  disconnected_channel : Option Nat
deriving DecidableEq, Repr

/-- `CommandHandler.__init__` (the `simulation_mode in (0, 1)` guard raises
`ValueError` for other values and is outside the claims). -/
def CommandHandler.init (simulation_mode : Nat) : CommandHandler :=
  ⟨simulation_mode, none, false, [], none⟩

/-- An error escaping a command handler: a recoverable `CommandError`, or a
fatal `RuntimeError` from device resolution. -/
inductive DispatchError where
  | commandError (e : CommandError)
  | fatal (e : RuntimeError)
deriving DecidableEq, Repr

def msgAlreadyStarted : String :=
  "Ignoring the configuration because telemetry loop already running. Send a stop first."

def msgNotConfigured : String :=
  "No configuration has been received yet. Ignoring start command."

def msgNotStarted : String := "Not started yet. Ignoring stop command."

/-- `CommandHandler.configure`. -/
def configure (h : CommandHandler) (configuration : Configuration) :
    CommandHandler × Option DispatchError :=
  if h.started then
    (h, some (.commandError ⟨msgAlreadyStarted, .ALREADY_STARTED⟩))
  else
    match validate_configuration configuration with
    | .error e => (h, some (.commandError e))
    | .ok _ => ({ h with configuration := some configuration }, none)

/-- The loop body of `CommandHandler.connect_devices`: per device, resolve
the device (a fatal error propagates at once, leaving the instruments
appended so far), build the `SelTemperature` reader and the
`EssInstrument`, append it to `self._ess_instruments` and start it (the
appended object and the started object are the same Python object). -/
def connect_devices_loop (simulation_mode : Nat) (disconnected_channel : Option Nat)
    (aarch64 : Bool) :
    List DeviceConfiguration → List EssInstrument →
      List EssInstrument × Option DispatchError
  | [], insts => (insts, none)
  | dc :: rest, insts =>
    match get_device simulation_mode disconnected_channel aarch64 dc with
    | .error e => (insts, some (.fatal e))
    | .ok device =>
      let sel_temperature : SelTemperature :=
        ⟨dc.name.getD (""), device, dc.channels.getD 0⟩
      let ess_instrument : EssInstrument :=
        ⟨dc.name.getD (""), sel_temperature, false, false⟩
      connect_devices_loop simulation_mode disconnected_channel aarch64 rest
        (insts ++ [(EssInstrument.start ess_instrument).1])

/-- `CommandHandler.start_sending_telemetry` (including
`connect_devices`). `if not self._configuration` is true when no
configuration is stored and also when the stored dict is empty; a stored
configuration always passed validation, so `devices` is present and
`cfg.devices.getD []` is never the default. `_started` is set only after
the whole loop succeeded. -/
def start_sending_telemetry (h : CommandHandler) (aarch64 : Bool) :
    CommandHandler × Option DispatchError :=
  match h.configuration with
  | none => (h, some (.commandError ⟨msgNotConfigured, .NOT_CONFIGURED⟩))
  | some cfg =>
    if cfg.devices = none ∧ cfg.extraKeys = 0 then
      (h, some (.commandError ⟨msgNotConfigured, .NOT_CONFIGURED⟩))
    else
      let r := connect_devices_loop h.simulation_mode h.disconnected_channel
        aarch64 (cfg.devices.getD []) h.ess_instruments
      match r.2 with
      | some e => ({ h with ess_instruments := r.1 }, some e)
      | none => ({ h with ess_instruments := r.1, started := true }, none)

/-- The loop `for ess_instrument in self._ess_instruments:
await ess_instrument.stop(); self._ess_instruments.remove(ess_instrument)`
of `stop_sending_telemetry`, with CPython list-iterator semantics: the
iterator advances by index while `remove` deletes the element at the
iterator's current index (each `EssInstrument` is a distinct object, so
`remove`, which compares by identity here, deletes exactly that element).
`done` holds the elements before the iterator's index, `todo` the elements
from the index on; removing the current element and advancing the index
skips exactly one element. Returns the final list and the instruments that
were stopped, in stop order. -/
def stop_loop (done todo : List EssInstrument) :
    List EssInstrument × List EssInstrument :=
  match todo with
  | [] => (done, [])
  | [x] => (done, [(EssInstrument.stop x).1])
  | x :: y :: rest =>
    let r := stop_loop (done ++ [y]) rest
    (r.1, (EssInstrument.stop x).1 :: r.2)

/-- `CommandHandler.stop_sending_telemetry`: raises `NOT_STARTED` when not
started, otherwise clears `_started` first and then runs the stop loop. -/
def stop_sending_telemetry (h : CommandHandler) :
    CommandHandler × Option DispatchError :=
  if h.started then
    let r := stop_loop [] h.ess_instruments
    ({ h with started := false, ess_instruments := r.1 }, none)
  else
    (h, some (.commandError ⟨msgNotStarted, .NOT_STARTED⟩))

/-- A recognized command together with its required keyword arguments:
CONFIGURE carries `configuration`, START and STOP take none. -/
inductive CommandInvocation where
  | configureCmd (configuration : Configuration)
  | startCmd
  | stopCmd
deriving DecidableEq, Repr

/-- A Command Reply `{response: <ResponseCode>}` passed to the callback. -/
structure Reply where
  response : ResponseCode
deriving DecidableEq, Repr

/-- The `self.dispatch_dict` lookup plus the `await func(**kwargs)` call of
`handle_command`. -/
def run_command (h : CommandHandler) (aarch64 : Bool) :
    CommandInvocation → CommandHandler × Option DispatchError
  | .configureCmd c => configure h c
  | .startCmd => start_sending_telemetry h aarch64
  | .stopCmd => stop_sending_telemetry h

/-- `CommandHandler.handle_command`: runs the handler; on success the
callback receives `{response: OK}`, on a `CommandError` it receives
`{response: e.response_code}`; any other exception (the fatal
`RuntimeError` of device resolution) is not caught, so the callback is
never invoked and the error propagates (the final `Bool`). The middle
component lists the Command Replies passed to the callback, in order. -/
def handle_command (h : CommandHandler) (aarch64 : Bool)
    (inv : CommandInvocation) : CommandHandler × List Reply × Bool :=
  let r := run_command h aarch64 inv
  match r.2 with
  | none => (r.1, [⟨ResponseCode.OK⟩], false)
  | some (.commandError e) => (r.1, [⟨e.response_code⟩], false)
  | some (.fatal _) => (r.1, [], true)

/-- The possible configuration violations, named after the claim's list of
conditions. -/
inductive ConfigViolation where
  | missingDevicesKey
  | extraTopLevelKeys
  | emptyDeviceList
  | missingMandatoryDeviceKey
  | invalidDeviceType
  | missingFtdiId
  | missingSerialPort
deriving DecidableEq, Repr

/-- Spec-side restatement of the per-device validation rules, in the order
the claim gives them: a record lacking `name`, `channels` or `type`; a
`type` outside {FTDI, SERIAL}; `type` FTDI without `ftdi_id`; `type`
SERIAL without `serial_port`. Returns the first violation, `none` when the
record is valid. -/
def deviceViolationSpec (dc : DeviceConfiguration) : Option ConfigViolation :=
  if dc.name = none ∨ dc.channels = none ∨ dc.type = none then
    some .missingMandatoryDeviceKey
  else if ¬ (dc.type = some DeviceType.FTDI ∨ dc.type = some DeviceType.SERIAL) then
    some .invalidDeviceType
  else if dc.type = some DeviceType.FTDI ∧ dc.ftdi_id = none then
    some .missingFtdiId
  else if dc.type = some DeviceType.SERIAL ∧ dc.serial_port = none then
    some .missingSerialPort
  else
    none

/-- Spec-side restatement of the whole-configuration validation rules, in
the claim's order: the top level is checked first (missing `devices` key,
more than one key, empty device sequence) and then the devices are scanned
in sequence order, yielding the first violation encountered. -/
def configViolationSpec (c : Configuration) : Option ConfigViolation :=
  match c.devices with
  | none => some .missingDevicesKey
  | some devs =>
    if c.extraKeys ≠ 0 then some .extraTopLevelKeys
    else if devs = [] then some .emptyDeviceList
    else devs.findSome? deviceViolationSpec

/-- The message the source attaches to each violation (`keyCount` is the
number of top-level keys, used only by the extra-keys message). -/
def violationMsg (keyCount : Nat) : ConfigViolation → String
  | .missingDevicesKey => msgMissingDevices
  | .extraTopLevelKeys => msgExpectedOneKey keyCount
  | .emptyDeviceList => msgDevicesDataMissing
  | .missingMandatoryDeviceKey => msgMandatoryKeys
  | .invalidDeviceType => msgBadType
  | .missingFtdiId => msgMissingFtdiId
  | .missingSerialPort => msgMissingSerialPort

theorem validate_device_refines (n : Nat) (dc : DeviceConfiguration) :
    validate_device_configuration dc =
      match deviceViolationSpec dc with
      | none => Except.ok ()
      | some v => Except.error ⟨violationMsg n v, ResponseCode.INVALID_CONFIGURATION⟩ := by
  unfold validate_device_configuration deviceViolationSpec
  split_ifs <;> rfl

theorem validate_devices_refines (n : Nat) (devs : List DeviceConfiguration) :
    validate_devices devs =
      match devs.findSome? deviceViolationSpec with
      | none => Except.ok ()
      | some v => Except.error ⟨violationMsg n v, ResponseCode.INVALID_CONFIGURATION⟩ := by
  induction devs with
  | nil => rfl
  | cons dc rest ih =>
    rw [validate_devices, List.findSome?_cons, validate_device_refines n dc]
    cases hdc : deviceViolationSpec dc with
    | none => simpa using ih
    | some v => rfl

theorem validate_configuration_refines (c : Configuration) :
    validate_configuration c =
      match configViolationSpec c with
      | none => Except.ok ()
      | some v =>
        Except.error ⟨violationMsg (1 + c.extraKeys) v, ResponseCode.INVALID_CONFIGURATION⟩ := by
  unfold validate_configuration configViolationSpec
  cases c.devices with
  | none => rfl
  | some devs =>
    dsimp only
    split_ifs with h1 h2
    · rfl
    · rfl
    · exact validate_devices_refines (1 + c.extraKeys) devs

theorem validate_configuration_error_code (c : Configuration) (e : CommandError)
    (he : validate_configuration c = .error e) :
    e.response_code = ResponseCode.INVALID_CONFIGURATION := by
  have hr := validate_configuration_refines c
  cases hv : configViolationSpec c with
  | none => rw [hv] at hr; rw [hr] at he; exact absurd he (by simp)
  | some v =>
    rw [hv] at hr
    rw [hr] at he
    injection he with he'
    rw [← he']

/-- Whether an `Except` computation succeeded. -/
def exceptOk {ε α : Type} : Except ε α → Bool
  | .ok _ => true
  | .error _ => false

/-- The supervisor `connect_devices` builds and starts for one device. -/
def launchedInstrument (dc : DeviceConfiguration) (device : Device) : EssInstrument :=
  (EssInstrument.start
    ⟨dc.name.getD (""), ⟨dc.name.getD (""), device, dc.channels.getD 0⟩, false, false⟩).1

theorem connect_devices_loop_ok (simulation_mode : Nat)
    (disconnected_channel : Option Nat) (aarch64 : Bool)
    (devs : List DeviceConfiguration) :
    ∀ insts : List EssInstrument,
      (∀ d ∈ devs,
        exceptOk (get_device simulation_mode disconnected_channel aarch64 d) = true) →
      ∃ sups : List EssInstrument,
        connect_devices_loop simulation_mode disconnected_channel aarch64 devs insts =
          (insts ++ sups, none) ∧
        sups.length = devs.length ∧ ∀ s ∈ sups, s.enabled = true := by
  induction devs with
  | nil =>
    intro insts _
    exact ⟨[], by simp [connect_devices_loop], rfl, by simp⟩
  | cons dc rest ih =>
    intro insts hres
    have hdc := hres dc (List.mem_cons_self dc rest)
    cases hg : get_device simulation_mode disconnected_channel aarch64 dc with
    | error e => rw [hg] at hdc; simp [exceptOk] at hdc
    | ok device =>
      obtain ⟨sups, heq, hlen, hen⟩ :=
        ih (insts ++ [launchedInstrument dc device])
          (fun d hd => hres d (List.mem_cons_of_mem _ hd))
      refine ⟨launchedInstrument dc device :: sups, ?_, ?_, ?_⟩
      · rw [connect_devices_loop, hg]
        rw [show insts ++ launchedInstrument dc device :: sups =
          (insts ++ [launchedInstrument dc device]) ++ sups by simp]
        exact heq
      · simp [hlen]
      · intro s hs
        rcases List.mem_cons.mp hs with h | h
        · rw [h]; rfl
        · exact hen s h

theorem connect_devices_loop_fail (simulation_mode : Nat)
    (disconnected_channel : Option Nat) (aarch64 : Bool)
    (pre : List DeviceConfiguration) (dcBad : DeviceConfiguration)
    (post : List DeviceConfiguration) :
    ∀ insts : List EssInstrument,
      (∀ d ∈ pre,
        exceptOk (get_device simulation_mode disconnected_channel aarch64 d) = true) →
      exceptOk (get_device simulation_mode disconnected_channel aarch64 dcBad) = false →
      ∃ (sups : List EssInstrument) (e : RuntimeError),
        connect_devices_loop simulation_mode disconnected_channel aarch64
            (pre ++ dcBad :: post) insts =
          (insts ++ sups, some (.fatal e)) ∧
        sups.length = pre.length ∧ ∀ s ∈ sups, s.enabled = true := by
  induction pre with
  | nil =>
    intro insts _ hbad
    cases hg : get_device simulation_mode disconnected_channel aarch64 dcBad with
    | ok device => rw [hg] at hbad; simp [exceptOk] at hbad
    | error e =>
      exact ⟨[], e, by rw [List.nil_append, connect_devices_loop, hg]; simp, rfl, by simp⟩
  | cons dc rest ih =>
    intro insts hres hbad
    have hdc := hres dc (List.mem_cons_self dc rest)
    cases hg : get_device simulation_mode disconnected_channel aarch64 dc with
    | error e => rw [hg] at hdc; simp [exceptOk] at hdc
    | ok device =>
      obtain ⟨sups, e, heq, hlen, hen⟩ :=
        ih (insts ++ [launchedInstrument dc device])
          (fun d hd => hres d (List.mem_cons_of_mem _ hd)) hbad
      refine ⟨launchedInstrument dc device :: sups, e, ?_, ?_, ?_⟩
      · rw [List.cons_append, connect_devices_loop, hg]
        rw [show insts ++ launchedInstrument dc device :: sups =
          (insts ++ [launchedInstrument dc device]) ++ sups by simp]
        exact heq
      · simp [hlen]
      · intro s hs
        rcases List.mem_cons.mp hs with h | h
        · rw [h]; rfl
        · exact hen s h

/-- Sample device configurations and configurations used by concrete
counterexamples and witnesses. -/
def dcFtdi1 : DeviceConfiguration :=
  ⟨some ("d1"), some 4, some DeviceType.FTDI, some ("AB"), none⟩

def dcFtdi2 : DeviceConfiguration :=
  ⟨some ("d2"), some 4, some DeviceType.FTDI, some ("CD"), none⟩

def dcSerial1 : DeviceConfiguration :=
  ⟨some ("d3"), some 4, some DeviceType.SERIAL, none, some ("p1")⟩

def cfg2 : Configuration := ⟨some [dcFtdi1, dcFtdi2], 0⟩

def cfgSerial : Configuration := ⟨some [dcSerial1], 0⟩

/-- C4: validation fails with INVALID_CONFIGURATION exactly when the
top-level mapping lacks the `devices` key, or has more than one key, or
the devices sequence is empty, or some device record lacks `name`,
`channels` or `type`, or has a `type` outside {FTDI, SERIAL}, or has type
FTDI without `ftdi_id`, or type SERIAL without `serial_port`; the top
level is checked first and the devices are scanned in sequence order, the
first violation encountered deciding the raised error (witnessed by its
message). `configViolationSpec` is the spec-side first-violation scan in
the claim's order; the source's validator equals its image under the
message table, so validation succeeds exactly when no violation exists and
every failure carries INVALID_CONFIGURATION. -/
theorem c4_validation_exactly_first_violation (c : Configuration) :
    validate_configuration c =
      (match configViolationSpec c with
      | none => Except.ok ()
      | some v =>
        Except.error
          ⟨violationMsg (1 + c.extraKeys) v, ResponseCode.INVALID_CONFIGURATION⟩) ∧
    (validate_configuration c = Except.ok () ↔ configViolationSpec c = none) := by
  have hr := validate_configuration_refines c
  refine ⟨hr, ?_⟩
  cases hv : configViolationSpec c with
  | none => rw [hv] at hr; simp [hr]
  | some v => rw [hv] at hr; simp [hr]

/-- C5: `configure` is all-or-nothing. When the dispatcher is started it
fails with ALREADY_STARTED and the whole state, in particular the stored
configuration, is exactly what it was; when validation rejects the
argument it fails with that validation error, which always carries
INVALID_CONFIGURATION, again leaving the state untouched; only when
validation succeeds is the configuration stored, replacing any prior
one. -/
theorem c5_configure_all_or_nothing (h : CommandHandler) (c : Configuration) :
    (h.started = true →
      configure h c =
        (h, some (.commandError ⟨msgAlreadyStarted, ResponseCode.ALREADY_STARTED⟩))) ∧
    (h.started = false → ∀ e, validate_configuration c = .error e →
      configure h c = (h, some (.commandError e)) ∧
        e.response_code = ResponseCode.INVALID_CONFIGURATION) ∧
    (h.started = false → validate_configuration c = .ok () →
      configure h c = ({ h with configuration := some c }, none)) := by
  refine ⟨?_, ?_, ?_⟩
  · intro hs
    simp [configure, hs]
  · intro hs e he
    exact ⟨by simp [configure, hs, he], validate_configuration_error_code c e he⟩
  · intro hs hv
    simp [configure, hs, hv]

theorem c5_configure_all_or_nothing_witness :
    configure (CommandHandler.init 0) cfg2 =
      ({ CommandHandler.init 0 with configuration := some cfg2 }, none) :=
  (c5_configure_all_or_nothing (CommandHandler.init 0) cfg2).2.2 rfl rfl

/-- C8: `start_sending_telemetry` on a dispatcher with no stored
configuration fails with NOT_CONFIGURED and returns the state unchanged
(still not started, no supervisor created); at the dispatch boundary the
single reply carries NOT_CONFIGURED. -/
theorem c8_start_not_configured (h : CommandHandler) (aarch64 : Bool)
    (hc : h.configuration = none) :
    start_sending_telemetry h aarch64 =
      (h, some (.commandError ⟨msgNotConfigured, ResponseCode.NOT_CONFIGURED⟩)) ∧
    handle_command h aarch64 .startCmd =
      (h, [⟨ResponseCode.NOT_CONFIGURED⟩], false) := by
  refine ⟨?_, ?_⟩
  · simp [start_sending_telemetry, hc]
  · simp [handle_command, run_command, start_sending_telemetry, hc]

theorem c8_start_not_configured_witness :
    start_sending_telemetry (CommandHandler.init 0) false =
      (CommandHandler.init 0,
        some (.commandError ⟨msgNotConfigured, ResponseCode.NOT_CONFIGURED⟩)) ∧
    handle_command (CommandHandler.init 0) false .startCmd =
      (CommandHandler.init 0, [⟨ResponseCode.NOT_CONFIGURED⟩], false) :=
  c8_start_not_configured (CommandHandler.init 0) false rfl

/-- C6: device resolution for a validated device configuration returns the
mock sensor whenever simulation mode is on, regardless of the declared
type; otherwise the FTDI transport device for type FTDI and the serial-hat
device for type SERIAL when the host platform matches the embedded
architecture; in the remaining case (SERIAL off that architecture) it
produces no device and fails with the fatal `RuntimeError` — a value that
carries no `ResponseCode` — which `handle_command` does not catch: the
start operation propagates it, the callback receives no Command Reply. -/
theorem c6_get_device_policy (simulation_mode : Nat)
    (disconnected_channel : Option Nat) (aarch64 : Bool)
    (dc : DeviceConfiguration)
    (hvalid : validate_device_configuration dc = .ok ()) :
    (simulation_mode = 1 →
      get_device simulation_mode disconnected_channel aarch64 dc =
        .ok (.mockTemperatureSensor (dc.name.getD ("")) (dc.channels.getD 0)
          disconnected_channel)) ∧
    (simulation_mode ≠ 1 → dc.type = some DeviceType.FTDI →
      get_device simulation_mode disconnected_channel aarch64 dc =
        .ok (.vcpFtdi (dc.name.getD ("")) (dc.ftdi_id.getD ("")))) ∧
    (simulation_mode ≠ 1 → dc.type = some DeviceType.SERIAL → aarch64 = true →
      get_device simulation_mode disconnected_channel aarch64 dc =
        .ok (.rpiSerialHat (dc.name.getD ("")) (dc.serial_port.getD ("")))) ∧
    (simulation_mode ≠ 1 → dc.type = some DeviceType.SERIAL → aarch64 = false →
      get_device simulation_mode disconnected_channel aarch64 dc =
          .error ⟨dc.type⟩ ∧
        ∀ h : CommandHandler, h.simulation_mode = simulation_mode →
          h.disconnected_channel = disconnected_channel →
          h.configuration = some ⟨some [dc], 0⟩ →
          handle_command h aarch64 .startCmd = (h, [], true)) := by
  refine ⟨?_, ?_, ?_, ?_⟩
  · intro hsim
    simp [get_device, hsim]
  · intro hsim htype
    simp [get_device, hsim, htype]
  · intro hsim htype ha
    simp [get_device, hsim, htype, ha, DeviceType.FTDI, DeviceType.SERIAL]
  · intro hsim htype ha
    have hg : get_device simulation_mode disconnected_channel aarch64 dc =
        .error ⟨dc.type⟩ := by
      simp [get_device, hsim, htype, ha, DeviceType.FTDI, DeviceType.SERIAL]
    refine ⟨hg, ?_⟩
    intro h hs hd hc
    rw [← hs, ← hd] at hg
    have hstep : start_sending_telemetry h aarch64 =
        (h, some (.fatal ⟨dc.type⟩)) := by
      simp [start_sending_telemetry, hc, connect_devices_loop, hg]
      rw [← hc]
    simp [handle_command, run_command, hstep]

theorem c6_get_device_policy_witness :
    get_device 0 none false dcSerial1 = .error ⟨dcSerial1.type⟩ ∧
    handle_command ⟨0, some ⟨some [dcSerial1], 0⟩, false, [], none⟩ false .startCmd =
      (⟨0, some ⟨some [dcSerial1], 0⟩, false, [], none⟩, [], true) := by
  have hc6 := (c6_get_device_policy 0 none false dcSerial1 rfl).2.2.2
    (by decide) rfl rfl
  exact ⟨hc6.1, hc6.2 ⟨0, some ⟨some [dcSerial1], 0⟩, false, [], none⟩ rfl rfl rfl⟩

/-- C9: there is no already-started guard in `start_sending_telemetry`: on a
dispatcher already STARTED with stored configuration `cfg`, a second start
is not rejected — provided the devices still resolve (they did on the
first start, and resolution depends only on simulation mode and the fixed
host platform) it replies OK and appends one fresh started supervisor per
device of `cfg`, so the active set grows by `len(cfg.devices)`; if it held
`len(cfg.devices)` entries before, it now holds twice that. -/
theorem c9_double_start_not_rejected (h : CommandHandler) (aarch64 : Bool)
    (cfg : Configuration) (devs : List DeviceConfiguration)
    (hstarted : h.started = true)
    (hcfg : h.configuration = some cfg)
    (hdevs : cfg.devices = some devs)
    (hres : ∀ d ∈ devs,
      exceptOk (get_device h.simulation_mode h.disconnected_channel aarch64 d) = true) :
    ∃ sups : List EssInstrument,
      handle_command h aarch64 .startCmd =
        ({ h with ess_instruments := h.ess_instruments ++ sups, started := true },
          [⟨ResponseCode.OK⟩], false) ∧
      sups.length = devs.length ∧
      (∀ s ∈ sups, s.enabled = true) ∧
      (h.ess_instruments.length = devs.length →
        (h.ess_instruments ++ sups).length = 2 * devs.length) := by
  obtain ⟨sups, heq, hlen, hen⟩ :=
    connect_devices_loop_ok h.simulation_mode h.disconnected_channel aarch64 devs
      h.ess_instruments hres
  refine ⟨sups, ?_, hlen, hen, ?_⟩
  · simp [handle_command, run_command, start_sending_telemetry, hcfg, hdevs, heq]
  · intro hn
    simp [hn, hlen]
    ring

theorem c9_double_start_not_rejected_witness :
    ∃ sups : List EssInstrument,
      handle_command ⟨1, some cfg2, true, [], none⟩ false .startCmd =
        ({ (⟨1, some cfg2, true, [], none⟩ : CommandHandler) with
            ess_instruments := ([] : List EssInstrument) ++ sups, started := true },
          [⟨ResponseCode.OK⟩], false) ∧
      sups.length = (cfg2.devices.getD []).length ∧
      (∀ s ∈ sups, s.enabled = true) ∧
      (([] : List EssInstrument).length = (cfg2.devices.getD []).length →
        (([] : List EssInstrument) ++ sups).length = 2 * (cfg2.devices.getD []).length) :=
  c9_double_start_not_rejected ⟨1, some cfg2, true, [], none⟩ false cfg2
    (cfg2.devices.getD []) rfl rfl rfl (by decide)

/-- C10: start is not atomic. With the dispatcher not started and a stored
configuration whose devices are `pre ++ dcBad :: post`, where every device
of `pre` resolves and `dcBad` fails resolution fatally, the fatal error
propagates out of `start_sending_telemetry` (no Command Reply reaches the
callback), the dispatcher is still marked not-started, and the `pre`
supervisors — already created and started — remain in the active set. -/
theorem c10_start_not_atomic (h : CommandHandler) (aarch64 : Bool)
    (cfg : Configuration) (pre post : List DeviceConfiguration)
    (dcBad : DeviceConfiguration)
    (hstarted : h.started = false)
    (hcfg : h.configuration = some cfg)
    (hdevs : cfg.devices = some (pre ++ dcBad :: post))
    (hres : ∀ d ∈ pre,
      exceptOk (get_device h.simulation_mode h.disconnected_channel aarch64 d) = true)
    (hbad : exceptOk
      (get_device h.simulation_mode h.disconnected_channel aarch64 dcBad) = false) :
    ∃ (sups : List EssInstrument) (e : RuntimeError),
      start_sending_telemetry h aarch64 =
        ({ h with ess_instruments := h.ess_instruments ++ sups },
          some (.fatal e)) ∧
      ((start_sending_telemetry h aarch64).1).started = false ∧
      sups.length = pre.length ∧
      (∀ s ∈ sups, s.enabled = true) ∧
      handle_command h aarch64 .startCmd =
        ({ h with ess_instruments := h.ess_instruments ++ sups }, [], true) := by
  obtain ⟨sups, e, heq, hlen, hen⟩ :=
    connect_devices_loop_fail h.simulation_mode h.disconnected_channel aarch64
      pre dcBad post h.ess_instruments hres hbad
  have hstep : start_sending_telemetry h aarch64 =
      ({ h with ess_instruments := h.ess_instruments ++ sups }, some (.fatal e)) := by
    simp [start_sending_telemetry, hcfg, hdevs, heq]
  refine ⟨sups, e, hstep, ?_, hlen, hen, ?_⟩
  · rw [hstep, ← hstarted]
  · simp [handle_command, run_command, hstep]

theorem c10_start_not_atomic_witness :
    ∃ (sups : List EssInstrument) (e : RuntimeError),
      start_sending_telemetry ⟨0, some ⟨some [dcFtdi1, dcSerial1], 0⟩, false, [], none⟩
          false =
        ({ (⟨0, some ⟨some [dcFtdi1, dcSerial1], 0⟩, false, [], none⟩ : CommandHandler)
            with ess_instruments := ([] : List EssInstrument) ++ sups },
          some (.fatal e)) ∧
      ((start_sending_telemetry
          ⟨0, some ⟨some [dcFtdi1, dcSerial1], 0⟩, false, [], none⟩ false).1).started =
        false ∧
      sups.length = [dcFtdi1].length ∧
      (∀ s ∈ sups, s.enabled = true) ∧
      handle_command ⟨0, some ⟨some [dcFtdi1, dcSerial1], 0⟩, false, [], none⟩
          false .startCmd =
        ({ (⟨0, some ⟨some [dcFtdi1, dcSerial1], 0⟩, false, [], none⟩ : CommandHandler)
            with ess_instruments := ([] : List EssInstrument) ++ sups }, [], true) :=
  c10_start_not_atomic ⟨0, some ⟨some [dcFtdi1, dcSerial1], 0⟩, false, [], none⟩
    false ⟨some [dcFtdi1, dcSerial1], 0⟩ [dcFtdi1] [] dcSerial1 rfl rfl rfl
    (by decide) (by decide)

/-- A concrete supervisor in the RUNNING state (enabled, task spawned). -/
def runningInstrument : EssInstrument :=
  ⟨"d1", ⟨"d1", Device.mockTemperatureSensor ("d1") 4 none, 4⟩, true, true⟩

/-- C7 counterexample: the claim says `stop()` on a RUNNING supervisor
cancels the polling task, awaits the task's termination, and only then
stops the reader. On this concrete running supervisor the action trace of
`stop()` is exactly [cancelTask, readerStop]: the cancellation is only
requested and the reader is stopped immediately, with no
await-of-task-termination action anywhere in the trace — refuting the
claim as stated. -/
theorem c7_stop_counterexample :
    (EssInstrument.stop runningInstrument).2 =
        [SupAction.cancelTask, SupAction.readerStop] ∧
      SupAction.awaitTaskDone ∉ (EssInstrument.stop runningInstrument).2 := by
  decide

/-- C7 amended: `stop()` on a RUNNING supervisor requests cancellation of
the polling task and then stops the underlying reader, WITHOUT awaiting
the task's termination in between (no trace of `stop` ever contains an
await-of-task-termination action); `stop()` on an already-IDLE supervisor
is a no-op (idempotent) that neither cancels a task nor stops the
reader. -/
theorem c7_stop_amended (s : EssInstrument) :
    (s.enabled = true →
      EssInstrument.stop s =
        ({ s with enabled := false },
          [SupAction.cancelTask, SupAction.readerStop])) ∧
    (s.enabled = false → EssInstrument.stop s = (s, [])) ∧
    SupAction.awaitTaskDone ∉ (EssInstrument.stop s).2 := by
  refine ⟨?_, ?_, ?_⟩
  · intro hs
    simp [EssInstrument.stop, hs]
  · intro hs
    cases s
    simp_all [EssInstrument.stop]
  · by_cases hs : s.enabled <;> simp [EssInstrument.stop, hs]

theorem c7_stop_amended_witness :
    EssInstrument.stop runningInstrument =
      ({ runningInstrument with enabled := false },
        [SupAction.cancelTask, SupAction.readerStop]) :=
  (c7_stop_amended runningInstrument).1 rfl

/-- A dispatcher configured (simulation mode off) with one SERIAL device,
as produced by the code itself from a fresh handler. -/
def hSerialConfigured : CommandHandler :=
  (configure (CommandHandler.init 0) cfgSerial).1

/-- C2 counterexample: the claim says every invocation of `handle_command`
on a recognized command invokes the callback with exactly one Command
Reply — never zero. On this dispatcher (simulation mode off, valid SERIAL
configuration stored, host platform not the embedded architecture) the
recognized START command makes device resolution raise the fatal
`RuntimeError`, which `handle_command` does not catch: the callback is
invoked zero times and the error propagates — refuting the claim as
stated. -/
theorem c2_handle_counterexample :
    (handle_command hSerialConfigured false .startCmd).2.1 = [] ∧
    (handle_command hSerialConfigured false .startCmd).2.2 = true := by
  decide

/-- C2 amended: one invocation of `handle_command` on a recognized command
invokes the callback with exactly one Command Reply — `{response: OK}`
when the handler completes without error and `{response: e.response_code}`
when it fails with a Command Error — UNLESS the handler fails with a
non-Command error (the fatal device-resolution `RuntimeError`), in which
case zero replies are emitted and the error propagates; never is more
than one reply emitted. -/
theorem c2_handle_amended (h : CommandHandler) (aarch64 : Bool)
    (inv : CommandInvocation) :
    ((run_command h aarch64 inv).2 = none →
      handle_command h aarch64 inv =
        ((run_command h aarch64 inv).1, [⟨ResponseCode.OK⟩], false)) ∧
    (∀ e, (run_command h aarch64 inv).2 = some (.commandError e) →
      handle_command h aarch64 inv =
        ((run_command h aarch64 inv).1, [⟨e.response_code⟩], false)) ∧
    (∀ e, (run_command h aarch64 inv).2 = some (.fatal e) →
      handle_command h aarch64 inv = ((run_command h aarch64 inv).1, [], true)) ∧
    (handle_command h aarch64 inv).2.1.length ≤ 1 := by
  refine ⟨?_, ?_, ?_, ?_⟩
  · intro hnone
    simp [handle_command, hnone]
  · intro e he
    simp [handle_command, he]
  · intro e he
    simp [handle_command, he]
  · cases hr : (run_command h aarch64 inv).2 with
    | none => simp [handle_command, hr]
    | some de => cases de <;> simp [handle_command, hr]

theorem c2_handle_amended_witness :
    handle_command (CommandHandler.init 0) false CommandInvocation.stopCmd =
      ((run_command (CommandHandler.init 0) false CommandInvocation.stopCmd).1,
        [⟨(⟨msgNotStarted, ResponseCode.NOT_STARTED⟩ : CommandError).response_code⟩],
        false) :=
  (c2_handle_amended (CommandHandler.init 0) false CommandInvocation.stopCmd).2.1
    ⟨msgNotStarted, ResponseCode.NOT_STARTED⟩ (by decide)

/-- A dispatcher in the STARTED state with two active supervisors, as
produced by the code itself: configure with two devices (simulation mode
on), then start. -/
def hTwoStarted : CommandHandler :=
  (start_sending_telemetry ((configure (CommandHandler.init 1) cfg2).1) false).1

/-- C1 (code bug): the claim — and the source's own class docstring, "stop:
Stop sending sensor data and disconnect from all devices" — say a
successful `stop_sending_telemetry` stops every supervisor in the active
set and leaves the set empty. The loop removes elements from
`self._ess_instruments` while iterating it, so on this started dispatcher
with two active supervisors the stop succeeds (no error) and marks the
dispatcher not-started, but only the first supervisor is stopped and
removed: one supervisor remains in the active set, still enabled (its
read loop was never cancelled and its reader never stopped). -/
theorem c1_stop_skips_supervisors :
    hTwoStarted.started = true ∧
    hTwoStarted.ess_instruments.length = 2 ∧
    (∀ s ∈ hTwoStarted.ess_instruments, s.enabled = true) ∧
    (stop_sending_telemetry hTwoStarted).2 = none ∧
    ((stop_sending_telemetry hTwoStarted).1).started = false ∧
    ((stop_sending_telemetry hTwoStarted).1).ess_instruments.length = 1 ∧
    ∀ s ∈ ((stop_sending_telemetry hTwoStarted).1).ess_instruments,
      s.enabled = true := by
  decide

def c3s1 : CommandHandler × List Reply × Bool :=
  handle_command (CommandHandler.init 1) false (.configureCmd cfg2)

def c3s2 : CommandHandler × List Reply × Bool :=
  handle_command c3s1.1 false .startCmd

def c3s3 : CommandHandler × List Reply × Bool :=
  handle_command c3s2.1 false .stopCmd

def c3s4 : CommandHandler × List Reply × Bool :=
  handle_command c3s3.1 false (.configureCmd cfg2)

def c3s5 : CommandHandler × List Reply × Bool :=
  handle_command c3s4.1 false .startCmd

/-- C3 (code bug): for the valid two-device configuration `cfg2`
(simulation mode on) the claim says configure → start → stop → configure →
start replies OK at each step, with exactly `len(cfg2.devices) = 2` active
supervisors after each start and none after each stop. The replies are
indeed OK at every step, but because `stop_sending_telemetry` removes
supervisors from the list it is iterating, the active set holds 1
supervisor after the stop (not 0) and 3 after the second start (not 2) —
the cycle is not idempotent, contradicting the claim and the source's own
docstring ("disconnect from all devices"). -/
theorem c3_round_trip_not_idempotent :
    c3s1.2.1 = [⟨ResponseCode.OK⟩] ∧
    c3s2.2.1 = [⟨ResponseCode.OK⟩] ∧
    c3s3.2.1 = [⟨ResponseCode.OK⟩] ∧
    c3s4.2.1 = [⟨ResponseCode.OK⟩] ∧
    c3s5.2.1 = [⟨ResponseCode.OK⟩] ∧
    (cfg2.devices.getD []).length = 2 ∧
    c3s2.1.ess_instruments.length = 2 ∧
    c3s3.1.ess_instruments.length = 1 ∧
    c3s5.1.ess_instruments.length = 3 := by
  decide
